import Mathlib

/-!
Verification of the booking-allocation core of a hotel-booking service
(`bookingService` with `getBooking`, `postBooking`, `putBooking`), shallowly
embedded over an explicit store.  The repository layer (`bookingRepository`,
`enrollmentRepository`, `ticketRepository`) is modelled over lists of records;
reads are pure functions of the store, writes return an updated store.
Timestamps (`createdAt`, `updatedAt`) are modelled through a `now` field of the
store, mirroring the database defaults applied by the persistence layer.
-/

set_option maxHeartbeats 1000000

/-- Ticket lifecycle status; the code compares against `"RESERVED"`. -/
inductive TicketStatus where
  | RESERVED
  | PAID
deriving DecidableEq, Repr

/-- TicketType flags relevant to hotel eligibility. -/
structure TicketType where
  isRemote : Bool
  includesHotel : Bool
deriving DecidableEq, Repr

/-- Ticket row, with its TicketType joined in (as the code's
`include: TicketType` does). -/
structure Ticket where
  enrollmentId : Nat
  status : TicketStatus
  ticketType : TicketType
deriving DecidableEq, Repr

/-- Enrollment row: links a user to event participation. -/
structure Enrollment where
  id : Nat
  userId : Nat
deriving DecidableEq, Repr

/-- Room row: identifier, capacity, owning hotel. -/
structure Room where
  id : Nat
  capacity : Nat
  hotelId : Nat
deriving DecidableEq, Repr

/-- Booking row: the one mutable entity of the core. -/
structure Booking where
  id : Nat
  userId : Nat
  roomId : Nat
  createdAt : Nat
  updatedAt : Nat
deriving DecidableEq, Repr

/-- The persistent store the repositories run against.  `nextBookingId`
models the autoincrement id sequence and `now` the database clock. -/
structure Store where
  bookings : List Booking
  rooms : List Room
  enrollments : List Enrollment
  tickets : List Ticket
  nextBookingId : Nat
  now : Nat
deriving DecidableEq, Repr

/-- The two error kinds thrown by the service layer:
`notFoundError` (HTTP 404) and `cannotBookingError` (HTTP 403, Conflict). -/
inductive Err where
  | notFound
  | cannotBooking
deriving DecidableEq, Repr

/-- `prisma.booking.findFirst({ where: { userId }, include: { Room } })`:
first booking of the user, with its room joined in. -/
def bookingRepository.getBooking (s : Store) (userId : Nat) :
    Option (Booking × Option Room) :=
  match s.bookings.find? (fun b => b.userId == userId) with
  | none => none
  | some b => some (b, s.rooms.find? (fun r => r.id == b.roomId))

/-- `prisma.booking.create({ data: { userId, roomId } })`: inserts one row
(fresh id, timestamps from the database clock) and returns it. -/
def bookingRepository.postBooking (s : Store) (userId roomId : Nat) :
    Booking × Store :=
  let b : Booking :=
    { id := s.nextBookingId, userId := userId, roomId := roomId,
      createdAt := s.now, updatedAt := s.now }
  (b, { s with bookings := s.bookings ++ [b],
               nextBookingId := s.nextBookingId + 1 })

/-- `prisma.room.findFirst({ where: { id: roomId } })`. -/
def bookingRepository.findRoom (s : Store) (roomId : Nat) : Option Room :=
  s.rooms.find? (fun r => r.id == roomId)

/-- `prisma.booking.findFirst({ where: { id: bookingId } })`. -/
def bookingRepository.findBooking (s : Store) (bookingId : Nat) :
    Option Booking :=
  s.bookings.find? (fun b => b.id == bookingId)

/-- `prisma.booking.count({ where: { roomId } })`. -/
def bookingRepository.countBookingRoom (s : Store) (roomId : Nat) : Nat :=
  (s.bookings.filter (fun b => b.roomId == roomId)).length

/-- `prisma.booking.update({ where: { id: bookingId }, data: { roomId } })`:
fails (throws) if no row has that id, otherwise rewrites the row's roomId
(refreshing `updatedAt`) and returns the updated row. -/
def bookingRepository.updateBooking (s : Store) (bookingId roomId : Nat) :
    Option (Booking × Store) :=
  match s.bookings.find? (fun b => b.id == bookingId) with
  | none => none
  | some b =>
    some ({ b with roomId := roomId, updatedAt := s.now },
      { s with bookings := s.bookings.map (fun c =>
          if c.id = bookingId then { c with roomId := roomId, updatedAt := s.now }
          else c) })

/-- `prisma.enrollment.findFirst({ where: { userId }, include: Address })`
(the address payload is irrelevant to this core). -/
def enrollmentRepository.findWithAddressByUserId (s : Store) (userId : Nat) :
    Option Enrollment :=
  s.enrollments.find? (fun e => e.userId == userId)

/-- `prisma.ticket.findFirst({ where: { enrollmentId }, include: TicketType })`. -/
def ticketRepository.findTicketByEnrollmentId (s : Store) (enrollmentId : Nat) :
    Option Ticket :=
  s.tickets.find? (fun t => t.enrollmentId == enrollmentId)

/-- Service helper `validateEnrollment`: the user's enrollment, or
`cannotBookingError`. -/
def validateEnrollment (s : Store) (userId : Nat) : Except Err Enrollment :=
  match enrollmentRepository.findWithAddressByUserId s userId with
  | none => .error Err.cannotBooking
  | some e => .ok e

/-- Service helper `validTicket`: throws `cannotBookingError` unless the user
has an enrollment with a ticket that is not RESERVED, not remote, and
includes hotel. -/
def validTicket (s : Store) (userId : Nat) : Except Err Ticket :=
  match validateEnrollment s userId with
  | .error e => .error e
  | .ok enrollment =>
    match ticketRepository.findTicketByEnrollmentId s enrollment.id with
    | none => .error Err.cannotBooking
    | some ticket =>
      if ticket.status = TicketStatus.RESERVED ∨ ticket.ticketType.isRemote = true
          ∨ ticket.ticketType.includesHotel = false then
        .error Err.cannotBooking
      else
        .ok ticket

/-- Service helper `verifyRoom`: `notFoundError` when the room is missing,
`cannotBookingError` when its bookings count has reached capacity, else the
occupancy count. -/
def verifyRoom (s : Store) (roomId : Nat) : Except Err Nat :=
  match bookingRepository.findRoom s roomId with
  | none => .error Err.notFound
  | some room =>
    let bookingRoom := bookingRepository.countBookingRoom s roomId
    if room.capacity ≤ bookingRoom then .error Err.cannotBooking
    else .ok bookingRoom

/-- Service `getBooking`: the user's booking (with room), or `notFoundError`. -/
def getBooking (s : Store) (userId : Nat) : Except Err (Booking × Option Room) :=
  match bookingRepository.getBooking s userId with
  | none => .error Err.notFound
  | some b => .ok b

/-- Service `postBooking` (the Booking Allocator): verify room, validate
ticket, reject a duplicate booking, then insert.  Returns the new booking
together with the store after the insert. -/
def postBooking (s : Store) (userId roomId : Nat) :
    Except Err (Booking × Store) :=
  match verifyRoom s roomId with
  | .error e => .error e
  | .ok _ =>
    match validTicket s userId with
    | .error e => .error e
    | .ok _ =>
      match bookingRepository.getBooking s userId with
      | some _ => .error Err.cannotBooking
      | none => .ok (bookingRepository.postBooking s userId roomId)

/-- Service `putBooking` (the Booking Mutator): fetch by bookingId
(`notFoundError` if absent), reject wrong owner or same-room reassignment
(`cannotBookingError`), verify the target room, then update. -/
def putBooking (s : Store) (userId bookingId roomId : Nat) :
    Except Err (Booking × Store) :=
  match bookingRepository.findBooking s bookingId with
  | none => .error Err.notFound
  | some booking =>
    if userId ≠ booking.userId ∨ roomId = booking.roomId then
      .error Err.cannotBooking
    else
      match verifyRoom s roomId with
      | .error e => .error e
      | .ok _ =>
        match bookingRepository.updateBooking s bookingId roomId with
        | none => .error Err.notFound
        | some res => .ok res

/-- Runner for `postBooking` seen from the database: a thrown error leaves the
store exactly as it was. -/
def postBookingRun (s : Store) (userId roomId : Nat) :
    Except Err Booking × Store :=
  match postBooking s userId roomId with
  | .error e => (.error e, s)
  | .ok (b, s') => (.ok b, s')

/-- Runner for `putBooking` seen from the database: a thrown error leaves the
store exactly as it was. -/
def putBookingRun (s : Store) (userId bookingId roomId : Nat) :
    Except Err Booking × Store :=
  match putBooking s userId bookingId roomId with
  | .error e => (.error e, s)
  | .ok (b, s') => (.ok b, s')

/-- Runner for `getBooking`: a pure read, the store is returned unchanged. -/
def getBookingRun (s : Store) (userId : Nat) :
    Except Err (Booking × Option Room) × Store :=
  (getBooking s userId, s)

/-- At most one Booking per user: the checked (not database-enforced)
invariant of the data model. -/
def atMostOneBookingPerUser (s : Store) : Prop :=
  ∀ uid : Nat, (s.bookings.filter (fun b => b.userId == uid)).length ≤ 1

/-- A TicketType with `isRemote = false` and `includesHotel = true`. -/
def ttHotel : TicketType := ⟨false, true⟩

/-- Sample store: user 7 enrolled (enrollment 5) with a PAID hotel ticket,
no booking, room 1 (capacity 2, hotel 10) empty. -/
def sHappy : Store :=
  { bookings := [], rooms := [⟨1, 2, 10⟩], enrollments := [⟨5, 7⟩],
    tickets := [⟨5, TicketStatus.PAID, ttHotel⟩], nextBookingId := 100, now := 3 }

/-- Sample store: user 7 already holds booking 1 in room 1. -/
def sDup : Store :=
  { bookings := [⟨1, 7, 1, 0, 0⟩], rooms := [⟨1, 2, 10⟩], enrollments := [⟨5, 7⟩],
    tickets := [⟨5, TicketStatus.PAID, ttHotel⟩], nextBookingId := 100, now := 3 }

/-- Sample store: user 7 holds booking 1 in room 1 (capacity 1, hotel 10);
room 2 (capacity 1, hotel 20) is empty. -/
def sPut : Store :=
  { bookings := [⟨1, 7, 1, 0, 0⟩], rooms := [⟨1, 1, 10⟩, ⟨2, 1, 20⟩],
    enrollments := [], tickets := [], nextBookingId := 100, now := 5 }

/-- When the room exists with spare occupancy, `verifyRoom` returns the
occupancy count. -/
theorem verifyRoom_ok (s : Store) (roomId : Nat) (room : Room)
    (hr : bookingRepository.findRoom s roomId = some room)
    (hcap : bookingRepository.countBookingRoom s roomId < room.capacity) :
    verifyRoom s roomId = .ok (bookingRepository.countBookingRoom s roomId) := by
  simp only [verifyRoom, hr]
  rw [if_neg (Nat.not_le.mpr hcap)]

/-- C1: a user with an enrollment carrying a PAID, non-remote,
hotel-included ticket and no existing booking, targeting an existing room
with spare occupancy, gets a new Booking with the requested userId and
roomId; exactly one Booking row is appended and rooms, enrollments and
tickets are untouched. -/
theorem postBooking_success (s : Store) (userId roomId : Nat)
    (e : Enrollment) (t : Ticket) (room : Room)
    (he : enrollmentRepository.findWithAddressByUserId s userId = some e)
    (ht : ticketRepository.findTicketByEnrollmentId s e.id = some t)
    (hstatus : t.status = TicketStatus.PAID)
    (hremote : t.ticketType.isRemote = false)
    (hhotel : t.ticketType.includesHotel = true)
    (hnb : bookingRepository.getBooking s userId = none)
    (hr : bookingRepository.findRoom s roomId = some room)
    (hcap : bookingRepository.countBookingRoom s roomId < room.capacity) :
    ∃ b s', postBooking s userId roomId = .ok (b, s') ∧
      b.userId = userId ∧ b.roomId = roomId ∧
      s'.bookings = s.bookings ++ [b] ∧
      s'.rooms = s.rooms ∧ s'.enrollments = s.enrollments ∧
      s'.tickets = s.tickets := by
  have hv := verifyRoom_ok s roomId room hr hcap
  have hvt : validTicket s userId = .ok t := by
    simp only [validTicket, validateEnrollment, he, ht]
    rw [if_neg]
    rintro (h | h | h)
    · rw [hstatus] at h; exact TicketStatus.noConfusion h
    · rw [hremote] at h; exact Bool.noConfusion h
    · rw [hhotel] at h; exact Bool.noConfusion h
  have hpost : postBooking s userId roomId =
      .ok (bookingRepository.postBooking s userId roomId) := by
    simp only [postBooking, hv, hvt, hnb]
  exact ⟨_, _, hpost, rfl, rfl, rfl, rfl, rfl, rfl⟩

/-- C1 witness: the happy-path store, user 7, room 1. -/
theorem postBooking_success_witness :
    ∃ b s', postBooking sHappy 7 1 = .ok (b, s') ∧
      b.userId = 7 ∧ b.roomId = 1 ∧
      s'.bookings = sHappy.bookings ++ [b] ∧
      s'.rooms = sHappy.rooms ∧ s'.enrollments = sHappy.enrollments ∧
      s'.tickets = sHappy.tickets :=
  postBooking_success sHappy 7 1 ⟨5, 7⟩ ⟨5, TicketStatus.PAID, ttHotel⟩ ⟨1, 2, 10⟩
    rfl rfl rfl rfl rfl rfl rfl (by decide)

/-- C4: `putBooking` fails with `notFound` when no booking has the given id,
and otherwise fails with the single `cannotBooking` kind both for a wrong
owner and for a same-room reassignment, with no condition at all on the
target room (the checks run before any room validation). -/
theorem putBooking_guards (s : Store) (userId bookingId roomId : Nat) :
    (bookingRepository.findBooking s bookingId = none →
      putBooking s userId bookingId roomId = .error Err.notFound)
    ∧ (∀ b, bookingRepository.findBooking s bookingId = some b →
        userId ≠ b.userId ∨ roomId = b.roomId →
        putBooking s userId bookingId roomId = .error Err.cannotBooking) := by
  constructor
  · intro h
    simp only [putBooking, h]
  · intro b hb hcond
    simp only [putBooking, hb]
    rw [if_pos hcond]

/-- C4 witness: missing booking 99 gives `notFound`; a non-owner (user 8) of
booking 1 gives `cannotBooking`, and so does user 7 reassigning booking 1
to its current room 1. -/
theorem putBooking_guards_witness :
    putBooking sPut 7 99 2 = .error Err.notFound ∧
    putBooking sPut 8 1 2 = .error Err.cannotBooking ∧
    putBooking sPut 7 1 1 = .error Err.cannotBooking :=
  ⟨(putBooking_guards sPut 7 99 2).1 rfl,
   (putBooking_guards sPut 8 1 2).2 ⟨1, 7, 1, 0, 0⟩ rfl (Or.inl (by decide)),
   (putBooking_guards sPut 7 1 1).2 ⟨1, 7, 1, 0, 0⟩ rfl (Or.inr rfl)⟩

/-- `validTicket` can only fail with the `cannotBooking` kind. -/
theorem validTicket_error_kind (s : Store) (userId : Nat) (e : Err)
    (h : validTicket s userId = .error e) : e = Err.cannotBooking := by
  rcases hfe : enrollmentRepository.findWithAddressByUserId s userId with _ | enr
  · simp only [validTicket, validateEnrollment, hfe, Except.error.injEq] at h
    exact h.symm
  · rcases hft : ticketRepository.findTicketByEnrollmentId s enr.id with _ | t
    · simp only [validTicket, validateEnrollment, hfe, hft, Except.error.injEq] at h
      exact h.symm
    · simp only [validTicket, validateEnrollment, hfe, hft] at h
      by_cases hc : t.status = TicketStatus.RESERVED ∨ t.ticketType.isRemote = true
          ∨ t.ticketType.includesHotel = false
      · rw [if_pos hc] at h
        simp only [Except.error.injEq] at h
        exact h.symm
      · rw [if_neg hc] at h
        exact absurd h (by simp)

/-- C10: `putBooking` accepts any existing target room with spare occupancy
whose id differs from the booking's current room, for the booking's owner —
with no condition relating the target room's hotel to the current room's. -/
theorem putBooking_accepts_any_other_room (s : Store)
    (userId bookingId roomId : Nat) (b : Booking) (room : Room)
    (hb : bookingRepository.findBooking s bookingId = some b)
    (howner : userId = b.userId)
    (hdiff : roomId ≠ b.roomId)
    (hr : bookingRepository.findRoom s roomId = some room)
    (hcap : bookingRepository.countBookingRoom s roomId < room.capacity) :
    ∃ b' s', putBooking s userId bookingId roomId = .ok (b', s') ∧
      b'.roomId = roomId ∧ b'.id = b.id ∧ b'.userId = b.userId := by
  have hv := verifyRoom_ok s roomId room hr hcap
  have hcond : ¬(userId ≠ b.userId ∨ roomId = b.roomId) := by
    rintro (h | h)
    · exact h howner
    · exact hdiff h
  have hupd : bookingRepository.updateBooking s bookingId roomId =
      some ({ b with roomId := roomId, updatedAt := s.now },
        { s with bookings := s.bookings.map (fun c =>
            if c.id = bookingId then { c with roomId := roomId, updatedAt := s.now }
            else c) }) := by
    unfold bookingRepository.updateBooking
    rw [show s.bookings.find? (fun c => c.id == bookingId) = some b from hb]
  have hput : putBooking s userId bookingId roomId =
      .ok ({ b with roomId := roomId, updatedAt := s.now },
        { s with bookings := s.bookings.map (fun c =>
            if c.id = bookingId then { c with roomId := roomId, updatedAt := s.now }
            else c) }) := by
    simp only [putBooking, hb, if_neg hcond, hv, hupd]
  exact ⟨_, _, hput, rfl, rfl, rfl⟩

/-- C10 witness: room 1 is in hotel 10 and room 2 in hotel 20, yet user 7
may move booking 1 from room 1 to room 2. -/
theorem putBooking_accepts_any_other_room_witness :
    (⟨1, 1, 10⟩ : Room).hotelId ≠ (⟨2, 1, 20⟩ : Room).hotelId ∧
    ∃ b' s', putBooking sPut 7 1 2 = .ok (b', s') ∧
      b'.roomId = 2 ∧ b'.id = 1 ∧ b'.userId = 7 :=
  ⟨by decide,
   putBooking_accepts_any_other_room sPut 7 1 2 ⟨1, 7, 1, 0, 0⟩ ⟨2, 1, 20⟩
     rfl rfl (by decide) rfl (by decide)⟩

/-- C5 counterexample: user 7 already holds a booking in `sDup`, yet
`postBooking sDup 7 99` (room 99 does not exist) fails with `notFound`,
not with the Conflict kind `cannotBooking`. -/
theorem postBooking_duplicate_counterexample :
    (∃ p, bookingRepository.getBooking sDup 7 = some p) ∧
    postBooking sDup 7 99 = .error Err.notFound ∧
    Err.notFound ≠ Err.cannotBooking := by
  exact ⟨⟨(⟨1, 7, 1, 0, 0⟩, some ⟨1, 2, 10⟩), rfl⟩, rfl, by decide⟩

/-- C5 (amended): for a user who already holds a booking, `postBooking`
fails with the Conflict kind `cannotBooking` for every target roomId that
names an existing room (a nonexistent room fails with `notFound` instead). -/
theorem postBooking_duplicate_conflict (s : Store) (userId roomId : Nat)
    (p : Booking × Option Room) (room : Room)
    (hb : bookingRepository.getBooking s userId = some p)
    (hr : bookingRepository.findRoom s roomId = some room) :
    postBooking s userId roomId = .error Err.cannotBooking := by
  unfold postBooking
  by_cases hcap : room.capacity ≤ bookingRepository.countBookingRoom s roomId
  · have hv : verifyRoom s roomId = .error Err.cannotBooking := by
      simp only [verifyRoom, hr]
      rw [if_pos hcap]
    rw [hv]
  · have hv := verifyRoom_ok s roomId room hr (Nat.lt_of_not_le hcap)
    rw [hv]
    rcases hvt : validTicket s userId with e | t
    · rw [validTicket_error_kind s userId e hvt]
    · rw [hb]

/-- C5 amended-claim witness: user 7 of `sDup` already has a booking, and a
second create targeting the existing room 1 fails with `cannotBooking`. -/
theorem postBooking_duplicate_conflict_witness :
    postBooking sDup 7 1 = .error Err.cannotBooking :=
  postBooking_duplicate_conflict sDup 7 1 (⟨1, 7, 1, 0, 0⟩, some ⟨1, 2, 10⟩)
    ⟨1, 2, 10⟩ rfl rfl

/-- Sample store: like `sHappy` but the user has no enrollment. -/
def sNoEnroll : Store :=
  { bookings := [], rooms := [⟨1, 2, 10⟩], enrollments := [], tickets := [],
    nextBookingId := 100, now := 3 }

/-- When the room check passes, validation failure turns into the
`cannotBooking` outcome of `postBooking`. -/
theorem postBooking_conflict_of_invalid_ticket (s : Store)
    (userId roomId : Nat) (room : Room) (e : Err)
    (hr : bookingRepository.findRoom s roomId = some room)
    (hcap : bookingRepository.countBookingRoom s roomId < room.capacity)
    (hvt : validTicket s userId = .error e) :
    postBooking s userId roomId = .error Err.cannotBooking := by
  have hv := verifyRoom_ok s roomId room hr hcap
  have he := validTicket_error_kind s userId e hvt
  subst he
  simp only [postBooking, hv, hvt]

/-- C2: ticket eligibility is exactly the conjunction of the five conditions
(enrollment exists; it has a ticket; status not RESERVED; not remote;
includes hotel), and — with the target room existing with spare occupancy and
the user holding no booking — each single-condition violation makes
`postBooking` fail with the Conflict kind `cannotBooking`. -/
theorem validTicket_five_conditions (s : Store) (userId roomId : Nat)
    (room : Room)
    (hr : bookingRepository.findRoom s roomId = some room)
    (hcap : bookingRepository.countBookingRoom s roomId < room.capacity)
    (_hnb : bookingRepository.getBooking s userId = none) :
    ((∃ t, validTicket s userId = .ok t) ↔
      (∃ e t, enrollmentRepository.findWithAddressByUserId s userId = some e ∧
        ticketRepository.findTicketByEnrollmentId s e.id = some t ∧
        t.status ≠ TicketStatus.RESERVED ∧ t.ticketType.isRemote = false ∧
        t.ticketType.includesHotel = true))
    ∧ (enrollmentRepository.findWithAddressByUserId s userId = none →
        postBooking s userId roomId = .error Err.cannotBooking)
    ∧ (∀ e, enrollmentRepository.findWithAddressByUserId s userId = some e →
        ticketRepository.findTicketByEnrollmentId s e.id = none →
        postBooking s userId roomId = .error Err.cannotBooking)
    ∧ (∀ e t, enrollmentRepository.findWithAddressByUserId s userId = some e →
        ticketRepository.findTicketByEnrollmentId s e.id = some t →
        t.status = TicketStatus.RESERVED → t.ticketType.isRemote = false →
        t.ticketType.includesHotel = true →
        postBooking s userId roomId = .error Err.cannotBooking)
    ∧ (∀ e t, enrollmentRepository.findWithAddressByUserId s userId = some e →
        ticketRepository.findTicketByEnrollmentId s e.id = some t →
        t.status ≠ TicketStatus.RESERVED → t.ticketType.isRemote = true →
        t.ticketType.includesHotel = true →
        postBooking s userId roomId = .error Err.cannotBooking)
    ∧ (∀ e t, enrollmentRepository.findWithAddressByUserId s userId = some e →
        ticketRepository.findTicketByEnrollmentId s e.id = some t →
        t.status ≠ TicketStatus.RESERVED → t.ticketType.isRemote = false →
        t.ticketType.includesHotel = false →
        postBooking s userId roomId = .error Err.cannotBooking) := by
  refine ⟨?_, ?_, ?_, ?_, ?_, ?_⟩
  · constructor
    · rintro ⟨t, hok⟩
      rcases hfe : enrollmentRepository.findWithAddressByUserId s userId with _ | enr
      · simp only [validTicket, validateEnrollment, hfe] at hok
        exact absurd hok (by simp)
      · rcases hft : ticketRepository.findTicketByEnrollmentId s enr.id with _ | t'
        · simp only [validTicket, validateEnrollment, hfe, hft] at hok
          exact absurd hok (by simp)
        · simp only [validTicket, validateEnrollment, hfe, hft] at hok
          by_cases hc : t'.status = TicketStatus.RESERVED ∨
              t'.ticketType.isRemote = true ∨ t'.ticketType.includesHotel = false
          · rw [if_pos hc] at hok
            exact absurd hok (by simp)
          · simp only [not_or, Bool.not_eq_true, Bool.not_eq_false] at hc
            exact ⟨enr, t', rfl, hft, hc.1, hc.2.1, hc.2.2⟩
    · rintro ⟨enr, t, hfe, hft, hstat, hrem, hhot⟩
      refine ⟨t, ?_⟩
      simp only [validTicket, validateEnrollment, hfe, hft]
      rw [if_neg]
      rintro (h | h | h)
      · exact hstat h
      · rw [hrem] at h; exact Bool.noConfusion h
      · rw [hhot] at h; exact Bool.noConfusion h
  · intro hfe
    refine postBooking_conflict_of_invalid_ticket s userId roomId room Err.cannotBooking hr hcap ?_
    simp only [validTicket, validateEnrollment, hfe]
  · intro e hfe hft
    refine postBooking_conflict_of_invalid_ticket s userId roomId room Err.cannotBooking hr hcap ?_
    simp only [validTicket, validateEnrollment, hfe, hft]
  · intro e t hfe hft hstat _ _
    refine postBooking_conflict_of_invalid_ticket s userId roomId room Err.cannotBooking hr hcap ?_
    simp only [validTicket, validateEnrollment, hfe, hft]
    rw [if_pos (Or.inl hstat)]
  · intro e t hfe hft _ hrem _
    refine postBooking_conflict_of_invalid_ticket s userId roomId room Err.cannotBooking hr hcap ?_
    simp only [validTicket, validateEnrollment, hfe, hft]
    rw [if_pos (Or.inr (Or.inl hrem))]
  · intro e t hfe hft _ _ hhot
    refine postBooking_conflict_of_invalid_ticket s userId roomId room Err.cannotBooking hr hcap ?_
    simp only [validTicket, validateEnrollment, hfe, hft]
    rw [if_pos (Or.inr (Or.inr hhot))]

/-- C2 witness: user 7 of `sNoEnroll` has no enrollment (all other setup
conditions hold) and the create fails with `cannotBooking`. -/
theorem validTicket_five_conditions_witness :
    postBooking sNoEnroll 7 1 = .error Err.cannotBooking :=
  (validTicket_five_conditions sNoEnroll 7 1 ⟨1, 2, 10⟩ rfl (by decide) rfl).2.1 rfl

/-- When the booking exists, the caller owns it, the target room differs and
the room check passes, `putBooking` performs exactly the by-id roomId
rewrite (refreshing `updatedAt`). -/
theorem putBooking_success_eq (s : Store) (userId bookingId roomId : Nat)
    (b : Booking)
    (hb : bookingRepository.findBooking s bookingId = some b)
    (howner : userId = b.userId) (hdiff : roomId ≠ b.roomId)
    (hv : verifyRoom s roomId = .ok (bookingRepository.countBookingRoom s roomId)) :
    putBooking s userId bookingId roomId =
      .ok ({ b with roomId := roomId, updatedAt := s.now },
        { s with bookings := s.bookings.map (fun c =>
            if c.id = bookingId then { c with roomId := roomId, updatedAt := s.now }
            else c) }) := by
  have hcond : ¬(userId ≠ b.userId ∨ roomId = b.roomId) := by
    rintro (h | h)
    · exact h howner
    · exact hdiff h
  have hupd : bookingRepository.updateBooking s bookingId roomId =
      some ({ b with roomId := roomId, updatedAt := s.now },
        { s with bookings := s.bookings.map (fun c =>
            if c.id = bookingId then { c with roomId := roomId, updatedAt := s.now }
            else c) }) := by
    unfold bookingRepository.updateBooking
    rw [show s.bookings.find? (fun c => c.id == bookingId) = some b from hb]
  simp only [putBooking, hb, if_neg hcond, hv, hupd]

/-- C3: the occupancy the room check uses is the number of bookings
referencing the room; with that occupancy at or above capacity both
operations fail with the Conflict kind, and below capacity the room check
passes (`putBooking`, whose earlier guards run first, then succeeds). -/
theorem room_occupancy_check (s : Store) (roomId : Nat) (room : Room)
    (hr : bookingRepository.findRoom s roomId = some room) :
    bookingRepository.countBookingRoom s roomId =
      (s.bookings.filter (fun b => b.roomId == roomId)).length
    ∧ (room.capacity ≤ bookingRepository.countBookingRoom s roomId →
        verifyRoom s roomId = .error Err.cannotBooking
        ∧ (∀ userId, postBooking s userId roomId = .error Err.cannotBooking)
        ∧ (∀ userId bookingId b,
            bookingRepository.findBooking s bookingId = some b →
            userId = b.userId → roomId ≠ b.roomId →
            putBooking s userId bookingId roomId = .error Err.cannotBooking))
    ∧ (bookingRepository.countBookingRoom s roomId < room.capacity →
        verifyRoom s roomId = .ok (bookingRepository.countBookingRoom s roomId)
        ∧ (∀ userId bookingId b,
            bookingRepository.findBooking s bookingId = some b →
            userId = b.userId → roomId ≠ b.roomId →
            ∃ p, putBooking s userId bookingId roomId = .ok p)) := by
  refine ⟨rfl, ?_, ?_⟩
  · intro hfull
    have hv : verifyRoom s roomId = .error Err.cannotBooking := by
      simp only [verifyRoom, hr]
      rw [if_pos hfull]
    refine ⟨hv, ?_, ?_⟩
    · intro userId
      simp only [postBooking, hv]
    · intro userId bookingId b hb howner hdiff
      have hcond : ¬(userId ≠ b.userId ∨ roomId = b.roomId) := by
        rintro (h | h)
        · exact h howner
        · exact hdiff h
      simp only [putBooking, hb, if_neg hcond, hv]
  · intro hcap
    have hv := verifyRoom_ok s roomId room hr hcap
    refine ⟨hv, ?_⟩
    intro userId bookingId b hb howner hdiff
    exact ⟨_, putBooking_success_eq s userId bookingId roomId b hb howner hdiff hv⟩

/-- C3 witness: in `sPut`, room 2 exists with occupancy 0 below capacity 1,
so the room check returns the occupancy count. -/
theorem room_occupancy_check_witness :
    verifyRoom sPut 2 = .ok (bookingRepository.countBookingRoom sPut 2) :=
  ((room_occupancy_check sPut 2 ⟨2, 1, 20⟩ rfl).2.2 (by decide)).1

/-- Inversion: a successful `postBooking` came through the insert, with the
room check, ticket validation and duplicate check all passed. -/
theorem postBooking_ok_inv (s : Store) (userId roomId : Nat)
    (b : Booking) (s' : Store)
    (hp : postBooking s userId roomId = .ok (b, s')) :
    bookingRepository.getBooking s userId = none ∧
    b = (bookingRepository.postBooking s userId roomId).1 ∧
    s' = (bookingRepository.postBooking s userId roomId).2 := by
  rcases hv : verifyRoom s roomId with e | n
  · simp only [postBooking, hv] at hp
    exact Except.noConfusion hp
  · rcases hvt : validTicket s userId with e | t
    · simp only [postBooking, hv, hvt] at hp
      exact Except.noConfusion hp
    · rcases hg : bookingRepository.getBooking s userId with _ | p
      · simp only [postBooking, hv, hvt, hg, Except.ok.injEq] at hp
        exact ⟨rfl, congrArg Prod.fst hp.symm, congrArg Prod.snd hp.symm⟩
      · simp only [postBooking, hv, hvt, hg] at hp
        exact Except.noConfusion hp

/-- Inversion: a successful `putBooking` found the booking, its owner and a
distinct target room, and performed exactly the by-id roomId rewrite. -/
theorem putBooking_ok_inv (s : Store) (userId bookingId roomId : Nat)
    (b : Booking) (s' : Store)
    (hp : putBooking s userId bookingId roomId = .ok (b, s')) :
    ∃ b0, bookingRepository.findBooking s bookingId = some b0 ∧
      userId = b0.userId ∧ roomId ≠ b0.roomId ∧
      b = { b0 with roomId := roomId, updatedAt := s.now } ∧
      s' = { s with bookings := s.bookings.map (fun c =>
        if c.id = bookingId then { c with roomId := roomId, updatedAt := s.now }
        else c) } := by
  rcases hb : bookingRepository.findBooking s bookingId with _ | b0
  · simp only [putBooking, hb] at hp
    exact Except.noConfusion hp
  · by_cases hcond : userId ≠ b0.userId ∨ roomId = b0.roomId
    · simp only [putBooking, hb, if_pos hcond] at hp
      exact Except.noConfusion hp
    · rcases hv : verifyRoom s roomId with e | n
      · simp only [putBooking, hb, if_neg hcond, hv] at hp
        exact Except.noConfusion hp
      · have hupd : bookingRepository.updateBooking s bookingId roomId =
            some ({ b0 with roomId := roomId, updatedAt := s.now },
              { s with bookings := s.bookings.map (fun c =>
                  if c.id = bookingId
                  then { c with roomId := roomId, updatedAt := s.now }
                  else c) }) := by
          unfold bookingRepository.updateBooking
          rw [show s.bookings.find? (fun c => c.id == bookingId) = some b0 from hb]
        simp only [putBooking, hb, if_neg hcond, hv, hupd, Except.ok.injEq] at hp
        push_neg at hcond
        exact ⟨b0, rfl, hcond.1, hcond.2,
          congrArg Prod.fst hp.symm, congrArg Prod.snd hp.symm⟩

/-- C6: on any failure the store is returned untouched (all record families
included), and on success each operation applies exactly its single write:
`postBooking` appends one booking row, `putBooking` rewrites roomId on the
targeted row, and neither touches rooms, enrollments or tickets. -/
theorem failure_preserves_store (s : Store) (userId bookingId roomId : Nat) :
    (∀ e, (postBookingRun s userId roomId).1 = .error e →
      (postBookingRun s userId roomId).2 = s)
    ∧ (∀ e, (putBookingRun s userId bookingId roomId).1 = .error e →
      (putBookingRun s userId bookingId roomId).2 = s)
    ∧ (∀ b s', postBooking s userId roomId = .ok (b, s') →
        s'.bookings = s.bookings ++ [b] ∧ s'.rooms = s.rooms ∧
        s'.enrollments = s.enrollments ∧ s'.tickets = s.tickets)
    ∧ (∀ b s', putBooking s userId bookingId roomId = .ok (b, s') →
        s'.bookings = s.bookings.map (fun c =>
          if c.id = bookingId then { c with roomId := roomId, updatedAt := s.now }
          else c) ∧
        s'.rooms = s.rooms ∧ s'.enrollments = s.enrollments ∧
        s'.tickets = s.tickets) := by
  refine ⟨?_, ?_, ?_, ?_⟩
  · intro e h
    rcases hp : postBooking s userId roomId with e' | ⟨b, s'⟩
    · simp [postBookingRun, hp]
    · simp [postBookingRun, hp] at h
  · intro e h
    rcases hp : putBooking s userId bookingId roomId with e' | ⟨b, s'⟩
    · simp [putBookingRun, hp]
    · simp [putBookingRun, hp] at h
  · intro b s' hp
    obtain ⟨-, hb, hs⟩ := postBooking_ok_inv s userId roomId b s' hp
    subst hb; subst hs
    exact ⟨rfl, rfl, rfl, rfl⟩
  · intro b s' hp
    obtain ⟨b0, -, -, -, -, hs⟩ := putBooking_ok_inv s userId bookingId roomId b s' hp
    subst hs
    exact ⟨rfl, rfl, rfl, rfl⟩

/-- C6 witness: a failing create (nonexistent room) and a failing update
(nonexistent booking) both leave their stores untouched. -/
theorem failure_preserves_store_witness :
    (postBookingRun sDup 7 99).2 = sDup ∧ (putBookingRun sPut 7 99 2).2 = sPut :=
  ⟨(failure_preserves_store sDup 7 0 99).1 Err.notFound rfl,
   (failure_preserves_store sPut 7 99 2).2.1 Err.notFound rfl⟩

/-- A length-one filter containing a matching member is exactly that member. -/
theorem filter_eq_singleton_of_length_one {α : Type} (l : List α) (p : α → Bool)
    (b : α) (hlen : (l.filter p).length = 1) (hmem : b ∈ l) (hpb : p b = true) :
    l.filter p = [b] := by
  obtain ⟨x, hx⟩ := List.length_eq_one.mp hlen
  have hbm : b ∈ l.filter p := List.mem_filter.mpr ⟨hmem, hpb⟩
  rw [hx] at hbm ⊢
  simp only [List.mem_singleton] at hbm
  rw [hbm]

/-- `find?` on a list whose `p`-filter is the singleton `[b]` yields `b`. -/
theorem find?_eq_some_of_filter_singleton {α : Type} (l : List α) (p : α → Bool)
    (b : α) (h : l.filter p = [b]) : l.find? p = some b := by
  induction l with
  | nil => simp at h
  | cons a t ih =>
    by_cases hpa : p a = true
    · rw [List.filter_cons_of_pos hpa] at h
      injection h with h1 h2
      rw [List.find?_cons_of_pos _ hpa, h1]
    · rw [List.filter_cons_of_neg hpa] at h
      rw [List.find?_cons_of_neg _ hpa]
      exact ih h

/-- C7: starting from a store with at most one booking per user, reads leave
the store untouched, a successful create only adds a booking for a user who
had none, and a successful update keeps every booking's userId — so all
three operations preserve the invariant. -/
theorem at_most_one_booking_preserved (s : Store)
    (hinv : atMostOneBookingPerUser s) :
    (∀ userId, (getBookingRun s userId).2 = s)
    ∧ (∀ userId roomId b s', postBooking s userId roomId = .ok (b, s') →
        atMostOneBookingPerUser s')
    ∧ (∀ userId bookingId roomId b s',
        putBooking s userId bookingId roomId = .ok (b, s') →
        atMostOneBookingPerUser s') := by
  refine ⟨fun _ => rfl, ?_, ?_⟩
  · intro userId roomId b s' hp
    obtain ⟨hg, hb, hs⟩ := postBooking_ok_inv s userId roomId b s' hp
    subst hb; subst hs
    intro uid
    have hfind : s.bookings.find? (fun c => c.userId == userId) = none := by
      rcases h : s.bookings.find? (fun c => c.userId == userId) with _ | c
      · exact h
      · simp only [bookingRepository.getBooking, h] at hg
        exact Option.noConfusion hg
    have hnone : ∀ c ∈ s.bookings, ¬ (c.userId == userId) = true :=
      List.find?_eq_none.mp hfind
    show ((s.bookings ++
        [(⟨s.nextBookingId, userId, roomId, s.now, s.now⟩ : Booking)]).filter
          (fun c => c.userId == uid)).length ≤ 1
    rw [List.filter_append, List.length_append]
    by_cases huid : uid = userId
    · subst huid
      have h0 : s.bookings.filter (fun c => c.userId == uid) = [] :=
        List.filter_eq_nil_iff.mpr hnone
      rw [h0]
      have h1 : (List.filter (fun c => c.userId == uid)
          [(⟨s.nextBookingId, uid, roomId, s.now, s.now⟩ : Booking)]).length ≤ 1 := by
        simp [List.filter_cons]
      simp only [List.length_nil, Nat.zero_add]
      exact h1
    · have h1 : List.filter (fun c => c.userId == uid)
          [(⟨s.nextBookingId, userId, roomId, s.now, s.now⟩ : Booking)] = [] := by
        simp [List.filter_cons, Ne.symm huid]
      rw [h1]
      simpa using hinv uid
  · intro userId bookingId roomId b s' hp
    obtain ⟨b0, hb0, _, _, _, hs⟩ := putBooking_ok_inv s userId bookingId roomId b s' hp
    subst hs
    intro uid
    show ((s.bookings.map (fun c =>
        if c.id = bookingId then { c with roomId := roomId, updatedAt := s.now }
        else c)).filter (fun c => c.userId == uid)).length ≤ 1
    rw [List.filter_map, List.length_map]
    have hcong : s.bookings.filter
        ((fun c => c.userId == uid) ∘ (fun c =>
          if c.id = bookingId then { c with roomId := roomId, updatedAt := s.now }
          else c)) = s.bookings.filter (fun c => c.userId == uid) := by
      refine List.filter_congr ?_
      intro c _
      by_cases h : c.id = bookingId <;> simp [h]
    rw [hcong]
    exact hinv uid

/-- C7 witness: the empty-booking store satisfies the invariant; the read
runner leaves it untouched and the store after user 7's successful create
still satisfies the invariant. -/
theorem at_most_one_booking_preserved_witness :
    (getBookingRun sHappy 7).2 = sHappy ∧
    atMostOneBookingPerUser
      { bookings := [⟨100, 7, 1, 3, 3⟩], rooms := [⟨1, 2, 10⟩],
        enrollments := [⟨5, 7⟩], tickets := [⟨5, TicketStatus.PAID, ttHotel⟩],
        nextBookingId := 101, now := 3 } :=
  ⟨(at_most_one_booking_preserved sHappy
      (fun uid => by simp [sHappy, atMostOneBookingPerUser])).1 7,
   (at_most_one_booking_preserved sHappy
      (fun uid => by simp [sHappy, atMostOneBookingPerUser])).2.1 7 1
      ⟨100, 7, 1, 3, 3⟩
      { bookings := [⟨100, 7, 1, 3, 3⟩], rooms := [⟨1, 2, 10⟩],
        enrollments := [⟨5, 7⟩], tickets := [⟨5, TicketStatus.PAID, ttHotel⟩],
        nextBookingId := 101, now := 3 } rfl⟩

/-- C8: a successful `putBooking` changes only the targeted booking's roomId
(refreshing `updatedAt`), keeping its id, userId and createdAt and every
other record; and when the mover was the sole occupant of their old room,
`getBooking` afterwards returns the updated booking and the old room's
occupancy count is 0. -/
theorem putBooking_frame (s : Store) (userId bookingId roomId : Nat)
    (b b' : Booking) (s' : Store)
    (hinv : atMostOneBookingPerUser s)
    (hb : bookingRepository.findBooking s bookingId = some b)
    (hp : putBooking s userId bookingId roomId = .ok (b', s')) :
    b'.id = b.id ∧ b'.userId = b.userId ∧ b'.roomId = roomId ∧
    b'.createdAt = b.createdAt ∧ b'.updatedAt = s.now ∧
    s'.rooms = s.rooms ∧ s'.enrollments = s.enrollments ∧
    s'.tickets = s.tickets ∧
    (∀ c ∈ s.bookings, c.id ≠ bookingId → c ∈ s'.bookings) ∧
    (bookingRepository.countBookingRoom s b.roomId = 1 →
      (∃ p, getBooking s' userId = .ok p ∧ p.1 = b') ∧
      bookingRepository.countBookingRoom s' b.roomId = 0) := by
  obtain ⟨b0, hb0, howner, hdiff, hbeq, hs⟩ :=
    putBooking_ok_inv s userId bookingId roomId b' s' hp
  rw [hb] at hb0
  injection hb0 with hbb
  subst hbb
  subst hbeq
  subst hs
  have hb' : s.bookings.find? (fun c => c.id == bookingId) = some b := hb
  have hbid : b.id = bookingId := by
    have := List.find?_some hb'
    simpa using this
  have hmem : b ∈ s.bookings := List.mem_of_find?_eq_some hb'
  refine ⟨rfl, rfl, rfl, rfl, rfl, rfl, rfl, rfl, ?_, ?_⟩
  · intro c hc hcid
    refine List.mem_map.mpr ⟨c, hc, ?_⟩
    rw [if_neg hcid]
  · intro hocc
    have hfX : s.bookings.filter (fun c => c.roomId == b.roomId) = [b] :=
      filter_eq_singleton_of_length_one _ _ b hocc hmem (by simp)
    constructor
    · -- getBooking in the updated store returns the updated booking
      have hq : (b.userId == userId) = true := by
        rw [howner]; simp
      have hlen1 : (s.bookings.filter (fun c => c.userId == userId)).length = 1 := by
        have hle := hinv userId
        have hmemf : b ∈ s.bookings.filter (fun c => c.userId == userId) :=
          List.mem_filter.mpr ⟨hmem, hq⟩
        have hpos : 0 < (s.bookings.filter (fun c => c.userId == userId)).length :=
          List.length_pos_of_mem hmemf
        omega
      have hfU : s.bookings.filter (fun c => c.userId == userId) = [b] :=
        filter_eq_singleton_of_length_one _ _ b hlen1 hmem hq
      have hfU' : (s.bookings.map (fun c =>
          if c.id = bookingId then { c with roomId := roomId, updatedAt := s.now }
          else c)).filter (fun c => c.userId == userId) =
          [{ b with roomId := roomId, updatedAt := s.now }] := by
        rw [List.filter_map]
        have hcong : s.bookings.filter ((fun c => c.userId == userId) ∘ (fun c =>
            if c.id = bookingId then { c with roomId := roomId, updatedAt := s.now }
            else c)) = s.bookings.filter (fun c => c.userId == userId) := by
          refine List.filter_congr ?_
          intro c _
          by_cases h : c.id = bookingId <;> simp [h]
        rw [hcong, hfU]
        simp [hbid]
      have hfind : (s.bookings.map (fun c =>
          if c.id = bookingId then { c with roomId := roomId, updatedAt := s.now }
          else c)).find? (fun c => c.userId == userId) =
          some { b with roomId := roomId, updatedAt := s.now } :=
        find?_eq_some_of_filter_singleton _ _ _ hfU'
      refine ⟨({ b with roomId := roomId, updatedAt := s.now },
          s.rooms.find? (fun r => r.id == roomId)), ?_, rfl⟩
      simp only [getBooking, bookingRepository.getBooking, hfind]
    · -- the old room's occupancy drops to 0
      show ((s.bookings.map (fun c =>
          if c.id = bookingId then { c with roomId := roomId, updatedAt := s.now }
          else c)).filter (fun c => c.roomId == b.roomId)).length = 0
      rw [List.filter_map, List.length_map]
      have hnil : s.bookings.filter ((fun c => c.roomId == b.roomId) ∘ (fun c =>
          if c.id = bookingId then { c with roomId := roomId, updatedAt := s.now }
          else c)) = [] := by
        refine List.filter_eq_nil_iff.mpr ?_
        intro c hc
        by_cases h : c.id = bookingId
        · simp only [Function.comp, h, if_pos]
          simp [hdiff]
        · simp only [Function.comp, if_neg h]
          intro hcr
          have hcX : c.roomId = b.roomId := by simpa using hcr
          have hcmem : c ∈ s.bookings.filter (fun d => d.roomId == b.roomId) :=
            List.mem_filter.mpr ⟨hc, by simp [hcX]⟩
          rw [hfX] at hcmem
          simp only [List.mem_singleton] at hcmem
          exact h (hcmem ▸ hbid)
      rw [hnil]
      rfl

/-- C8 witness: in `sPut`, user 7 moves booking 1 from room 1 (sole
occupant) to room 2; the update succeeds, a following read shows room 2 and
room 1's occupancy is 0. -/
theorem putBooking_frame_witness :
    ∃ p, getBooking
        { bookings := [⟨1, 7, 2, 0, 5⟩], rooms := [⟨1, 1, 10⟩, ⟨2, 1, 20⟩],
          enrollments := [], tickets := [], nextBookingId := 100, now := 5 } 7 =
        .ok p ∧ p.1 = (⟨1, 7, 2, 0, 5⟩ : Booking) :=
  ((putBooking_frame sPut 7 1 2 ⟨1, 7, 1, 0, 0⟩ ⟨1, 7, 2, 0, 5⟩
      { bookings := [⟨1, 7, 2, 0, 5⟩], rooms := [⟨1, 1, 10⟩, ⟨2, 1, 20⟩],
        enrollments := [], tickets := [], nextBookingId := 100, now := 5 }
      (fun uid => by
        by_cases h : (7 : Nat) = uid <;>
          simp [sPut, atMostOneBookingPerUser, List.filter_cons, h])
      rfl rfl).2.2.2.2.2.2.2.2.2 rfl).1

/-- Like `sPut` but with unrelated enrollment and ticket records for user 7
(and a different id sequence). -/
def sPutE : Store :=
  { bookings := [⟨1, 7, 1, 0, 0⟩], rooms := [⟨1, 1, 10⟩, ⟨2, 1, 20⟩],
    enrollments := [⟨9, 7⟩],
    tickets := [⟨9, TicketStatus.RESERVED, ⟨true, false⟩⟩],
    nextBookingId := 200, now := 5 }

/-- C9: `putBooking` never consults enrollment or ticket data — two stores
agreeing on bookings, rooms and the clock (differing arbitrarily in
enrollments and tickets) produce the same outcome: the same error kind, or
the same updated booking with the same resulting bookings table. -/
theorem putBooking_independent_of_tickets (s1 s2 : Store)
    (userId bookingId roomId : Nat)
    (hb : s1.bookings = s2.bookings) (hr : s1.rooms = s2.rooms)
    (hn : s1.now = s2.now) :
    Except.map (fun p => (p.1, p.2.bookings))
        (putBooking s1 userId bookingId roomId) =
      Except.map (fun p => (p.1, p.2.bookings))
        (putBooking s2 userId bookingId roomId) := by
  obtain ⟨bk1, rm1, en1, tk1, nx1, n1⟩ := s1
  obtain ⟨bk2, rm2, en2, tk2, nx2, n2⟩ := s2
  replace hb : bk1 = bk2 := hb
  replace hr : rm1 = rm2 := hr
  replace hn : n1 = n2 := hn
  subst hb; subst hr; subst hn
  rcases hfb : bk1.find? (fun c => c.id == bookingId) with _ | b
  · simp [putBooking, bookingRepository.findBooking, hfb]
  · by_cases hcond : userId ≠ b.userId ∨ roomId = b.roomId
    · simp [putBooking, bookingRepository.findBooking, hfb, hcond]
    · rcases hfr : rm1.find? (fun r => r.id == roomId) with _ | room
      · simp [putBooking, bookingRepository.findBooking, hfb, hcond, verifyRoom,
          bookingRepository.findRoom, hfr]
      · by_cases hcap : room.capacity ≤ (bk1.filter (fun c => c.roomId == roomId)).length
        · simp [putBooking, bookingRepository.findBooking, hfb, hcond, verifyRoom,
            bookingRepository.findRoom, hfr, bookingRepository.countBookingRoom, hcap]
        · simp [putBooking, bookingRepository.findBooking, hfb, hcond, verifyRoom,
            bookingRepository.findRoom, hfr, bookingRepository.countBookingRoom, hcap,
            bookingRepository.updateBooking, Except.map]

/-- C9 witness: `sPut` (no enrollments or tickets) and `sPutE` (a RESERVED
remote ticket for user 7) agree on bookings, rooms and clock, and the same
update call produces the same outcome on both. -/
theorem putBooking_independent_of_tickets_witness :
    Except.map (fun p => (p.1, p.2.bookings)) (putBooking sPut 7 1 2) =
      Except.map (fun p => (p.1, p.2.bookings)) (putBooking sPutE 7 1 2) :=
  putBooking_independent_of_tickets sPut sPutE 7 1 2 rfl rfl rfl
